import Mathlib

/-!
Verification of the fidelity loyalty-platform frontend against its
natural-language specification.

The definitions below are a shallow embedding of the TypeScript sources under
fidelity-frontend/ and frontend/ (plus, where explicitly noted, behaviour of
the backend that is only documented, not present).  Conventions:
- TS string-literal unions become inductive types;
- TS interfaces become structures (optional / nullable fields become Option);
- ISO-8601 timestamp strings compared through Date objects are modelled by
  their epoch value as an Int;
- numeric form-input values (always decimal strings in the DOM, converted with
  Number / parseFloat) are modelled by the rational they denote, with none for
  an empty field;
- JSON request bodies are recorded by their top-level field names (after
  JSON.stringify drops undefined members) next to the concrete values the
  builders put in them.
-/

namespace Fidelity

/-! ## Core enumerations (fidelity-frontend/lib/api-types.ts) -/

/-- Wire statuses of an issued coupon, from the MyCouponWithCode interface:
status is the union ISSUED | RESERVED | REDEEMED | CANCELLED | EXPIRED. -/
inductive CouponStatus
  | ISSUED
  | RESERVED
  | REDEEMED
  | CANCELLED
  | EXPIRED
deriving DecidableEq, Repr

/-- The wire string of each coupon status. -/
def CouponStatus.wireName : CouponStatus → String
  | .ISSUED => "ISSUED"
  | .RESERVED => "RESERVED"
  | .REDEEMED => "REDEEMED"
  | .CANCELLED => "CANCELLED"
  | .EXPIRED => "EXPIRED"

/-- entity_scope union CUSTOMER | FRANCHISE | STORE. -/
inductive EntityScope
  | CUSTOMER
  | FRANCHISE
  | STORE
deriving DecidableEq, Repr

/-- Wallet scope union GLOBAL | CUSTOMER | FRANCHISE | STORE. -/
inductive WalletScope
  | GLOBAL
  | CUSTOMER
  | FRANCHISE
  | STORE
deriving DecidableEq, Repr

/-- redeem_type union BRL | PERCENTAGE | FREE_SKU. -/
inductive RedeemType
  | BRL
  | PERCENTAGE
  | FREE_SKU
deriving DecidableEq, Repr

/-- HTTP method union from lib/api-client.ts. -/
inductive HttpMethod
  | GET
  | POST
  | PUT
  | PATCH
  | DELETE
deriving DecidableEq, Repr

/-! ## MyCouponWithCode (api-types.ts) and the my-coupons read path -/

/-- QR payload carried by coupon responses. -/
structure QrPayload where
  format : String
  data : String
deriving DecidableEq, Repr

/-- The nested offer summary inside MyCouponWithCode. -/
structure MyCouponOfferInfo where
  entity_scope : EntityScope
  entity_id : String
  points_cost : Int
  is_active : Bool
deriving DecidableEq, Repr

/-- The nested coupon-type summary inside MyCouponWithCode. -/
structure MyCouponTypeInfo where
  redeem_type : RedeemType
  discount_amount_brl : Option Rat
  discount_amount_percentage : Option Rat
deriving DecidableEq, Repr

/-- MyCouponWithCode: the record type of the response of the my-coupons read
endpoint.  Note that it carries the plaintext code and the QR payload. -/
structure MyCouponWithCode where
  id : String
  offer_id : String
  status : CouponStatus
  issued_at : String
  code : String
  qr : QrPayload
  offer : MyCouponOfferInfo
  coupon_type : MyCouponTypeInfo
deriving DecidableEq, Repr

/-- URL built by the useMyCoupons hook (hooks/use-my-coupons.ts). -/
def useMyCouponsUrl (offerId : Option String) : String :=
  match offerId with
  | some oid => "/coupons/my-with-codes?offer_id=" ++ oid
  | none => "/coupons/my-with-codes"

/-- Method of the useMyCoupons fetch: apiFetch(url, 'GET'). -/
def useMyCouponsMethod : HttpMethod := .GET

/-- Text rendered in the coupon-code box of the CouponModal on the my-coupons
page: the code field of the fetched record, verbatim. -/
def couponModalCodeText (c : MyCouponWithCode) : String :=
  c.code

/-! ## Status renderer (app/marketplace/my-coupons/page.tsx) -/

/-- Result record of getStatusInfo. -/
structure StatusInfo where
  label : String
  className : String
deriving DecidableEq, Repr

/-- The default arm of getStatusInfo: echoes the raw status string. -/
def getStatusInfoFallback (status : String) : StatusInfo :=
  ⟨status, "bg-slate-100 text-slate-700"⟩

/-- getStatusInfo from the my-coupons page: maps a wire status string to a
label and badge class, falling through to the default arm otherwise. -/
def getStatusInfo (status : String) : StatusInfo :=
  if status = "ISSUED" then ⟨"Disponível", "bg-green-100 text-green-700"⟩
  else if status = "RESERVED" then ⟨"Reservado", "bg-yellow-100 text-yellow-700"⟩
  else if status = "REDEEMED" then ⟨"Utilizado", "bg-slate-100 text-slate-700"⟩
  else if status = "CANCELLED" then ⟨"Cancelado", "bg-red-100 text-red-700"⟩
  else if status = "EXPIRED" then ⟨"Expirado", "bg-slate-100 text-slate-600"⟩
  else getStatusInfoFallback status

/-! ## apiFetch (fidelity-frontend/lib/api-client.ts) -/

/-- Base URL default of apiFetch. -/
def API_BASE_URL : String := "http://localhost:8000"

/-- URL resolution in apiFetch: absolute paths pass through, everything else is
prefixed with the base URL. -/
def apiFetchUrl (path : String) : String :=
  if path.startsWith "http" then path else API_BASE_URL ++ path

/-- The per-request option bag of apiFetch that matters to header assembly:
auth defaults to true and extra headers default to empty. -/
structure ApiFetchOptions where
  auth : Bool := true
  headers : List (String × String) := []
deriving DecidableEq, Repr

/-- Headers assembled by apiFetch: the caller-supplied headers, plus
Authorization when auth is enabled and an access token is set, plus
Content-Type when a (non-FormData) body is present. -/
def apiFetchHeaders (opts : ApiFetchOptions) (accessToken : Option String)
    (hasBody : Bool) : List (String × String) :=
  let withAuth :=
    match accessToken with
    | some tok =>
        if opts.auth then opts.headers ++ [("Authorization", "Bearer " ++ tok)]
        else opts.headers
    | none => opts.headers
  if hasBody then withAuth ++ [("Content-Type", "application/json")] else withAuth

/-- A top-level member value of a JSON request body: a string, a number, or a
nested object (whose inner shape no claim depends on). -/
inductive BodyValue
  | str (s : String)
  | num (q : Rat)
  | obj
deriving DecidableEq, Repr

/-- A request as assembled by apiFetch: resolved URL, method, headers, and the
top-level members of the JSON body it serialises (JSON.stringify drops members
whose value is undefined). -/
structure ApiRequest where
  url : String
  method : HttpMethod
  headers : List (String × String)
  bodyFields : List (String × BodyValue)
deriving DecidableEq, Repr

/-- A request carries an idempotency key when either an Idempotency-Key header
or an idempotency_key body field is attached. -/
def requestCarriesIdempotencyKey (r : ApiRequest) : Bool :=
  r.headers.any (fun h => h.1 = "Idempotency-Key")
    || r.bodyFields.any (fun f => f.1 = "idempotency_key")

/-! ## Issue-coupon request builder (offer detail page, handleBuyCoupon) -/

/-- BuyCouponResponse from api-types.ts. -/
structure BuyCouponResponse where
  coupon_id : String
  code : String
  qr : QrPayload
deriving DecidableEq, Repr

/-- The request handleBuyCoupon hands to apiFetch: POST /coupons/buy with the
body literal holding exactly the offer_id field, and no extra options. -/
def buyCouponRequest (offerId : String) (accessToken : Option String) : ApiRequest :=
  ⟨apiFetchUrl "/coupons/buy", .POST,
    apiFetchHeaders ⟨true, []⟩ accessToken true, [("offer_id", .str offerId)]⟩

/-! ## Earn-points request builder (hooks/use-earn-points.ts, app/pdv/page.tsx) -/

/-- The order sub-object of EarnPointsRequest.  The items and shipping members
are opaque records in the source; only their presence is modelled. -/
structure OrderPayload where
  total_brl : Rat
  tax_brl : Option Rat := none
  items : Option Unit := none
  shipping : Option Unit := none
  checkout_ref : Option String := none
  external_id : Option String := none
deriving DecidableEq, Repr

/-- EarnPointsRequest from use-earn-points.ts. -/
structure EarnPointsRequest where
  person_id : Option String := none
  cpf : Option String := none
  order : OrderPayload
  store_id : String
deriving DecidableEq, Repr

/-- Top-level members of the serialised earn-points body; JSON.stringify drops
the person_id and cpf members when their value is undefined. -/
def earnPointsBodyFields (d : EarnPointsRequest) : List (String × BodyValue) :=
  (match d.person_id with
    | some pid => [("person_id", BodyValue.str pid)]
    | none => [])
    ++ (match d.cpf with
      | some c => [("cpf", BodyValue.str c)]
      | none => [])
    ++ [("order", BodyValue.obj), ("store_id", BodyValue.str d.store_id)]

/-- The request the earnPoints function hands to apiFetch: POST
/pdv/earn-points with the caller-supplied data object and no extra options. -/
def earnPointsApiRequest (d : EarnPointsRequest) (accessToken : Option String) :
    ApiRequest :=
  ⟨apiFetchUrl "/pdv/earn-points", .POST,
    apiFetchHeaders ⟨true, []⟩ accessToken true, earnPointsBodyFields d⟩

/-! ## PDV earn-points form (app/pdv/page.tsx, handleSubmit) -/

/-- State of the PDV form.  userId, cpf and storeId are plain text / select
values; orderValue is the value of the number-typed order field, modelled by
the rational it parses to, with none for an empty field (a number input whose
entry is not a valid decimal exposes the empty value). -/
structure PdvFormState where
  userId : String
  cpf : String
  orderValue : Option Rat
  storeId : String
deriving DecidableEq, Repr

/-- The earn-points body handleSubmit builds once validation passes:
person_id and cpf fall back to undefined when empty, the order carries the
parsed total with tax_brl 0 and an empty items record. -/
def pdvEarnPointsBody (f : PdvFormState) (total : Rat) : EarnPointsRequest :=
  ⟨if f.userId = "" then none else some f.userId,
    if f.cpf = "" then none else some f.cpf,
    ⟨total, some 0, some (), none, none, none⟩,
    f.storeId⟩

/-- handleSubmit of the PDV page: three guards run in order — missing both
identifiers, missing or non-positive order value, missing store — and each
returns before the earn-points call; only past all three is a request made. -/
def pdvHandleSubmitRequest (f : PdvFormState) (accessToken : Option String) :
    Option ApiRequest :=
  if f.userId = "" && f.cpf = "" then none
  else
    match f.orderValue with
    | none => none
    | some total =>
        if total ≤ 0 then none
        else if f.storeId = "" then none
        else some (earnPointsApiRequest (pdvEarnPointsBody f total) accessToken)

/-! ## Offer detail page (marketplace/offers/id, src/unnamed/part_012) -/

/-- OfferAsset from api-types.ts. -/
structure OfferAsset where
  id : String
  kind : String
  url : String
deriving DecidableEq, Repr

/-- CouponType from api-types.ts. -/
structure CouponTypeRec where
  id : String
  redeem_type : RedeemType
  discount_amount_brl : Option Rat
  discount_amount_percentage : Option Rat
  sku_specific : Bool
  valid_skus : Option (List String)
deriving DecidableEq, Repr

/-- CouponOffer from api-types.ts (timestamps as epoch values). -/
structure CouponOffer where
  id : String
  entity_scope : EntityScope
  entity_id : String
  initial_quantity : Int
  current_quantity : Int
  max_per_customer : Int
  points_cost : Int
  is_active : Bool
  start_at : Option Int
  end_at : Option Int
  coupon_type : CouponTypeRec
  assets : List OfferAsset
deriving DecidableEq, Repr

/-- disabled attribute of the buy button:
not canBuy, or a purchase in flight, or current_quantity at most zero. -/
def buyButtonDisabled (canBuy isPurchasing : Bool) (offer : CouponOffer) : Bool :=
  !canBuy || isPurchasing || decide (offer.current_quantity ≤ 0)

/-- Label of the buy button, with the same branch order as the source. -/
def buyButtonLabel (canBuy isPurchasing : Bool) (offer : CouponOffer) : String :=
  if isPurchasing then "Emitindo cupom..."
  else if offer.current_quantity ≤ 0 then "Estoque esgotado"
  else if canBuy then "Obter cupom"
  else "Login necessário"

/-- handleBuyCoupon: returns immediately when no offer is loaded, otherwise
posts the buy request for the loaded offer. -/
def handleBuyCouponRequest (offer : Option CouponOffer)
    (accessToken : Option String) : Option ApiRequest :=
  match offer with
  | none => none
  | some o => some (buyCouponRequest o.id accessToken)

/-- Issuance request produced by clicking the buy button: the button is only
rendered while there is no purchase result, and a disabled button does not
fire its click handler. -/
def buyButtonClickRequest (purchaseResult : Option BuyCouponResponse)
    (canBuy isPurchasing : Bool) (offer : CouponOffer)
    (accessToken : Option String) : Option ApiRequest :=
  if purchaseResult.isNone && !buyButtonDisabled canBuy isPurchasing offer then
    handleBuyCouponRequest (some offer) accessToken
  else none

/-- Issuance request produced by the auto-generate effect (generate=true in the
query string): it fires handleBuyCoupon whenever the offer is loaded, the user
can buy, nothing was purchased yet and no purchase is in flight — with no check
of current_quantity. -/
def autoGenerateRequest (shouldGenerate : Bool) (offer : Option CouponOffer)
    (canBuy : Bool) (purchaseResult : Option BuyCouponResponse)
    (isPurchasing : Bool) (accessToken : Option String) : Option ApiRequest :=
  if shouldGenerate && offer.isSome && canBuy
      && purchaseResult.isNone && !isPurchasing then
    handleBuyCouponRequest offer accessToken
  else none

/-- Rendering of the per-customer limit on the offer detail page: the JSX
expression has union type string-or-number, showing the unlimited text exactly
for quota zero and the numeric quota otherwise. -/
inductive QuotaDisplay
  | unlimitedText
  | quota (n : Int)
deriving DecidableEq, Repr

/-- The per-customer limit as rendered by the offer detail page. -/
def maxPerCustomerDisplay (offer : CouponOffer) : QuotaDisplay :=
  if offer.max_per_customer = 0 then .unlimitedText
  else .quota offer.max_per_customer

/-- Field label of the quota input in the admin offer form
(components/admin/coupon-offer-form.tsx). -/
def maxPerCustomerFieldLabel : String := "Máximo por cliente (0 = ilimitado)"

/-! ## Coupon-type creation form (components/admin/coupon-type-form.tsx) -/

/-- CreateCouponTypeRequest from api-types.ts. -/
structure CreateCouponTypeRequest where
  redeem_type : RedeemType
  sku_specific : Bool
  discount_amount_brl : Option Rat := none
  discount_amount_percentage : Option Rat := none
  valid_skus : Option (List String) := none
deriving DecidableEq, Repr

/-- SKU list derived from the comma-separated text field: split on commas, trim
each entry, drop empties. -/
def splitSkus (s : String) : List String :=
  ((s.splitOn ",").map (fun x => x.trim)).filter (fun x => !x.isEmpty)

/-- Payload built by handleSubmit of the coupon-type form: the base payload
holds the tag and the sku_specific flag, then exactly one discount member is
assigned in the branch matching the tag.  The numeric text fields are modelled
by the rational their Number conversion yields. -/
def buildCouponTypePayload (redeemType : RedeemType)
    (discountAmountBrl discountPercentage : Rat) (skuSpecific : Bool)
    (validSkus : String) : CreateCouponTypeRequest :=
  let base : CreateCouponTypeRequest := ⟨redeemType, skuSpecific, none, none, none⟩
  match redeemType with
  | .BRL => { base with discount_amount_brl := some discountAmountBrl }
  | .PERCENTAGE => { base with discount_amount_percentage := some discountPercentage }
  | .FREE_SKU => { base with valid_skus := some (splitSkus validSkus) }

/-! ## Point transactions (src/unnamed/part_013, TransactionCard) -/

/-- PointTransaction from api-types.ts, timestamps as epoch values. -/
structure PointTransactionRec where
  id : Int
  person_id : String
  scope : WalletScope
  scope_id : Option String
  store_id : Option String
  order_id : Option String
  delta : Int
  created_at : Int
  expires_at : Option Int
deriving DecidableEq, Repr

/-- isExpired computed by TransactionCard: the expires_at value is present and
its Date is strictly before the current Date. -/
def transactionCardIsExpired (t : PointTransactionRec) (now : Int) : Bool :=
  match t.expires_at with
  | some e => decide (e < now)
  | none => false

/-- Modelled from the spec: the backend Point Ledger and its get_balance
operation are not part of this repository snapshot; spec section 4.4 defines
get_balance as summing delta over transactions where expires_at IS NULL OR
expires_at > now.  This is that per-transaction inclusion test. -/
def countsTowardBalance (t : PointTransactionRec) (now : Int) : Bool :=
  match t.expires_at with
  | none => true
  | some e => decide (now < e)

/-- Modelled from the spec: get_balance of spec section 4.4, summing the deltas
of the included transactions. -/
def get_balance (txns : List PointTransactionRec) (now : Int) : Int :=
  (txns.filter (fun t => countsTowardBalance t now)).foldl
    (fun acc t => acc + t.delta) 0

/-! ## Admin api of the second frontend (frontend/lib/api/admin.ts and the
ApiClient class of src/unnamed/part_003) -/

/-- Member names defined by the ApiClient class (src/unnamed/part_003): the
token helpers, the private request core, and the four HTTP verb methods. -/
def apiClientMethods : List String :=
  ["loadTokenFromStorage", "setAccessToken", "request", "get", "post", "put",
    "delete"]

/-- Method name adminApi.updateUserRole invokes on apiClient. -/
def updateUserRoleInvokedMethod : String := "patch"

/-- Path updateUserRole targets. -/
def updateUserRolePath (userId : String) : String :=
  "/admin/users/" ++ userId ++ "/role"

/-- Dynamic method dispatch on the apiClient object: accessing a member that
the class does not define yields undefined, and invoking it raises a TypeError
before any request is constructed. -/
def invokeApiClientMethod (name : String) : Except String Unit :=
  if apiClientMethods.contains name then .ok ()
  else .error ("TypeError: apiClient." ++ name ++ " is not a function")

/-! ## Wallet summary (components/marketplace/wallet-summary.tsx) -/

/-- WalletBalance from api-types.ts. -/
structure WalletBalanceRec where
  scope : WalletScope
  scope_id : Option String
  points : Int
  as_brl : Option Rat
deriving DecidableEq, Repr

/-- Display mode of the wallet summary. -/
inductive DisplayAs
  | points
  | brl
deriving DecidableEq, Repr

/-- A rendered balance figure: a currency amount or a point count. -/
inductive BalanceDisplay
  | currency (v : Rat)
  | number (n : Int)
deriving DecidableEq, Repr

/-- The large figure of a balance card: in brl mode the as_brl conversion with
the null-coalescing fallback to 0, in points mode the point count. -/
def walletMainValue (displayAs : DisplayAs) (b : WalletBalanceRec) :
    BalanceDisplay :=
  match displayAs with
  | .brl => .currency (b.as_brl.getD 0)
  | .points => .number b.points

/-- The secondary line of a balance card: in brl mode always the point count;
in points mode the currency approximation only when as_brl is non-null. -/
def walletSubValue (displayAs : DisplayAs) (b : WalletBalanceRec) :
    Option BalanceDisplay :=
  match displayAs with
  | .brl => some (.number b.points)
  | .points => b.as_brl.map (fun v => .currency v)

/-! ## Concrete instances used by witnesses and counterexamples -/

/-- An issued coupon as the my-coupons read endpoint returns it. -/
def sampleIssuedCoupon : MyCouponWithCode :=
  ⟨"c-1", "offer-1", .ISSUED, "2026-01-01T00:00:00Z", "SECRET-CODE-123",
    ⟨"svg", "qr-image-data"⟩, ⟨.STORE, "store-1", 0, true⟩,
    ⟨.BRL, some 10, none⟩⟩

/-- A transaction whose expiry instant equals the observation instant. -/
def txnExpiringNow : PointTransactionRec :=
  ⟨1, "person-1", .STORE, some "store-1", some "store-1", none, 10, 0, some 100⟩

/-- A transaction with no expiry. -/
def txnNoExpiry : PointTransactionRec :=
  ⟨2, "person-2", .GLOBAL, none, none, none, 5, 0, none⟩

/-- A reusable coupon type record. -/
def sampleCouponType : CouponTypeRec :=
  ⟨"ct-1", .BRL, some 10, none, false, none⟩

/-- An active offer whose stock is exhausted. -/
def outOfStockOffer : CouponOffer :=
  ⟨"offer-1", .STORE, "store-1", 5, 0, 1, 0, true, none, none,
    sampleCouponType, []⟩

/-- An offer with a non-zero per-customer quota. -/
def limitedOffer : CouponOffer :=
  ⟨"offer-2", .CUSTOMER, "cust-1", 10, 4, 3, 0, true, none, none,
    sampleCouponType, []⟩

/-- A wallet balance with points but no currency conversion. -/
def nullBrlBalance : WalletBalanceRec :=
  ⟨.STORE, some "store-1", 500, none⟩

/-! ## Theorems for the claims -/

/-- Claim C1 (the code evaluated at the failing input): the my-coupons hook
performs a GET read on /coupons/my-with-codes, the records of that read carry
the plaintext redemption code of each issued coupon, and the coupon modal
renders that code verbatim — so the plaintext is obtainable from a later read
operation on issued coupons, contrary to the claim and to the repository guide
(GET /coupons/my is documented without the code, with a one-time reveal). -/
theorem plaintext_code_exposed_by_my_coupons_read :
    useMyCouponsMethod = HttpMethod.GET ∧
    useMyCouponsUrl none = "/coupons/my-with-codes" ∧
    sampleIssuedCoupon.status = CouponStatus.ISSUED ∧
    couponModalCodeText sampleIssuedCoupon = "SECRET-CODE-123" :=
  ⟨rfl, rfl, rfl, rfl⟩

/-- Claim C2 counterexample: a concrete issue-coupon request and a concrete
earn-points request, both built with an access token present, carry no
idempotency key in any header or body field. -/
theorem no_idempotency_key_counterexample :
    requestCarriesIdempotencyKey (buyCouponRequest "offer-1" (some "tok")) = false ∧
    requestCarriesIdempotencyKey
      (earnPointsApiRequest
        ⟨some "person-1", none, ⟨50, some 0, some (), none, none, none⟩, "store-1"⟩
        (some "tok")) = false := by
  decide

/-- Claim C2 (amended): every request produced by the issue-coupon and
earn-points request builders carries only Authorization and Content-Type
headers and the body members of its payload literal, none of which is an
idempotency key. -/
theorem request_builders_attach_no_idempotency_key
    (offerId : String) (tok : Option String) (d : EarnPointsRequest) :
    requestCarriesIdempotencyKey (buyCouponRequest offerId tok) = false ∧
    requestCarriesIdempotencyKey (earnPointsApiRequest d tok) = false := by
  constructor
  · cases tok <;>
      simp [requestCarriesIdempotencyKey, buyCouponRequest, apiFetchHeaders]
  · cases tok <;>
      rcases d with ⟨pid, c, o, sid⟩ <;> cases pid <;> cases c <;>
        simp [requestCarriesIdempotencyKey, earnPointsApiRequest,
          apiFetchHeaders, earnPointsBodyFields]

/-- Claim C2 witness: the amended claim at a concrete buy request without a
token and a concrete CPF-identified earn-points request. -/
theorem request_builders_attach_no_idempotency_key_witness :
    requestCarriesIdempotencyKey (buyCouponRequest "offer-2" none) = false ∧
    requestCarriesIdempotencyKey
      (earnPointsApiRequest
        ⟨none, some "12345678900", ⟨30, some 0, some (), none, none, none⟩,
          "store-2"⟩ none) = false :=
  request_builders_attach_no_idempotency_key "offer-2" none
    ⟨none, some "12345678900", ⟨30, some 0, some (), none, none, none⟩, "store-2"⟩

/-- Claim C3: every coupon exposed at the public interface carries one of the
five redemption states, the status renderer resolves each of them to its
dedicated branch, and the fallback arm is unreachable for them. -/
theorem status_renderer_covers_all_states (c : MyCouponWithCode) :
    c.status ∈ [CouponStatus.ISSUED, CouponStatus.RESERVED, CouponStatus.REDEEMED,
      CouponStatus.CANCELLED, CouponStatus.EXPIRED] ∧
    getStatusInfo c.status.wireName ≠ getStatusInfoFallback c.status.wireName := by
  cases h : c.status <;> exact ⟨by simp, by decide⟩

/-- Claim C3 witness: the coverage statement at a concrete issued coupon. -/
theorem status_renderer_covers_all_states_witness :
    sampleIssuedCoupon.status ∈ [CouponStatus.ISSUED, CouponStatus.RESERVED,
      CouponStatus.REDEEMED, CouponStatus.CANCELLED, CouponStatus.EXPIRED] ∧
    getStatusInfo sampleIssuedCoupon.status.wireName ≠
      getStatusInfoFallback sampleIssuedCoupon.status.wireName :=
  status_renderer_covers_all_states sampleIssuedCoupon

/-- Claim C4 counterexample: a transaction whose expires_at equals the current
instant does not count toward the balance, yet is not classified as expired —
so counting toward the balance is not equivalent to not being expired. -/
theorem balance_vs_expired_boundary_counterexample :
    ¬ (countsTowardBalance txnExpiringNow 100 = true ↔
        transactionCardIsExpired txnExpiringNow 100 = false) := by
  decide

/-- Claim C4 (amended): a transaction counts toward the balance exactly when
expires_at is null or strictly later than now; the expired classification holds
exactly when expires_at is non-null and strictly earlier than now, and a null
expires_at is never classified expired; the two notions agree except at the
boundary where expires_at equals now. -/
theorem expiry_classification (t : PointTransactionRec) (now : Int) :
    (countsTowardBalance t now = true ↔
      (t.expires_at = none ∨ ∃ e, t.expires_at = some e ∧ now < e)) ∧
    (transactionCardIsExpired t now = true ↔
      ∃ e, t.expires_at = some e ∧ e < now) ∧
    (t.expires_at = none → transactionCardIsExpired t now = false) ∧
    (t.expires_at ≠ some now →
      (countsTowardBalance t now = true ↔
        transactionCardIsExpired t now = false)) := by
  rcases h : t.expires_at with _ | e
  · simp [countsTowardBalance, transactionCardIsExpired, h]
  · simp [countsTowardBalance, transactionCardIsExpired, h]
    omega

/-- Claim C4 witness: the amended theorem applied to a transaction with no
expiry and to the off-boundary equivalence. -/
theorem expiry_classification_witness :
    transactionCardIsExpired txnNoExpiry 50 = false ∧
    (countsTowardBalance txnNoExpiry 50 = true ↔
      transactionCardIsExpired txnNoExpiry 50 = false) :=
  ⟨(expiry_classification txnNoExpiry 50).2.2.1 rfl,
    (expiry_classification txnNoExpiry 50).2.2.2 (by decide)⟩

/-- Claim C5 counterexample: with the generate flag set, a buyable user and no
prior purchase, the auto-generate effect produces an issuance request for an
offer whose current_quantity is zero. -/
theorem out_of_stock_auto_generate_counterexample :
    outOfStockOffer.current_quantity ≤ 0 ∧
    (autoGenerateRequest true (some outOfStockOffer) true none false none).isSome
      = true := by
  decide

/-- Claim C5 (amended): for every offer with current_quantity at most zero the
buy button is disabled and (when no purchase is in flight) labelled out of
stock, so no issuance request is produced through the button; the
auto-generate effect, however, does not check the stock. -/
theorem out_of_stock_disables_buy_button (canBuy isPurchasing : Bool)
    (offer : CouponOffer) (purchaseResult : Option BuyCouponResponse)
    (tok : Option String) (h : offer.current_quantity ≤ 0) :
    buyButtonDisabled canBuy isPurchasing offer = true ∧
    (isPurchasing = false →
      buyButtonLabel canBuy isPurchasing offer = "Estoque esgotado") ∧
    buyButtonClickRequest purchaseResult canBuy isPurchasing offer tok = none := by
  refine ⟨?_, ?_, ?_⟩
  · simp [buyButtonDisabled, h]
  · intro hp
    simp [buyButtonLabel, hp, h]
  · simp [buyButtonClickRequest, buyButtonDisabled, h]

/-- Claim C5 witness: the amended theorem applied to the exhausted offer with a
buyable idle user. -/
theorem out_of_stock_disables_buy_button_witness :
    buyButtonDisabled true false outOfStockOffer = true ∧
    (false = false →
      buyButtonLabel true false outOfStockOffer = "Estoque esgotado") ∧
    buyButtonClickRequest none true false outOfStockOffer none = none :=
  out_of_stock_disables_buy_button true false outOfStockOffer none none
    (by decide)

/-- Claim C6: the per-customer limit renders as the unlimited text exactly when
max_per_customer is zero, and as the numeric quota otherwise. -/
theorem max_per_customer_zero_means_unlimited (offer : CouponOffer) :
    (maxPerCustomerDisplay offer = QuotaDisplay.unlimitedText ↔
      offer.max_per_customer = 0) ∧
    (offer.max_per_customer ≠ 0 →
      maxPerCustomerDisplay offer = QuotaDisplay.quota offer.max_per_customer) := by
  by_cases h : offer.max_per_customer = 0 <;> simp [maxPerCustomerDisplay, h]

/-- Claim C6 witness: the quota branch at a concrete offer with quota 3. -/
theorem max_per_customer_zero_means_unlimited_witness :
    maxPerCustomerDisplay limitedOffer = QuotaDisplay.quota 3 :=
  (max_per_customer_zero_means_unlimited limitedOffer).2 (by decide)

/-- Claim C7: a PDV submission that supplies neither identifier, or whose order
value is missing or not strictly positive, or that selects no store, never
reaches the earn-points call. -/
theorem pdv_input_errors_rejected_before_request (f : PdvFormState)
    (tok : Option String)
    (h : (f.userId = "" ∧ f.cpf = "") ∨ f.orderValue = none ∨
      (∃ q, f.orderValue = some q ∧ q ≤ 0) ∨ f.storeId = "") :
    pdvHandleSubmitRequest f tok = none := by
  unfold pdvHandleSubmitRequest
  rcases h with ⟨h1, h2⟩ | h | ⟨q, hq, hle⟩ | h
  · simp [h1, h2]
  · split
    · rfl
    · simp [h]
  · split
    · rfl
    · rw [hq]
      simp [hle]
  · split
    · rfl
    · cases hov : f.orderValue with
      | none => rfl
      | some q => by_cases hq : q ≤ 0 <;> simp [hq, h]

/-- Claim C7 witness: a submission with both identifiers empty produces no
request. -/
theorem pdv_input_errors_rejected_before_request_witness :
    pdvHandleSubmitRequest ⟨"", "", some 50, "store-1"⟩ none = none :=
  pdv_input_errors_rejected_before_request ⟨"", "", some 50, "store-1"⟩ none
    (Or.inl ⟨rfl, rfl⟩)

/-- Claim C8: the coupon-type creation payload sets exactly one discount field,
the one matching the redeem-type tag. -/
theorem coupon_type_payload_sets_exactly_one_discount_field
    (rt : RedeemType) (brl pct : Rat) (sk : Bool) (skus : String) :
    ((buildCouponTypePayload rt brl pct sk skus).discount_amount_brl.isSome ↔
      rt = RedeemType.BRL) ∧
    ((buildCouponTypePayload rt brl pct sk skus).discount_amount_percentage.isSome ↔
      rt = RedeemType.PERCENTAGE) ∧
    ((buildCouponTypePayload rt brl pct sk skus).valid_skus.isSome ↔
      rt = RedeemType.FREE_SKU) ∧
    (buildCouponTypePayload rt brl pct sk skus).redeem_type = rt := by
  cases rt <;> simp [buildCouponTypePayload]

/-- Claim C8 witness: the exclusivity statement at a concrete free-SKU
creation. -/
theorem coupon_type_payload_exclusivity_witness :
    ((buildCouponTypePayload RedeemType.FREE_SKU 0 0 true
        "sku-1, sku-2").discount_amount_brl.isSome ↔
      RedeemType.FREE_SKU = RedeemType.BRL) ∧
    ((buildCouponTypePayload RedeemType.FREE_SKU 0 0 true
        "sku-1, sku-2").discount_amount_percentage.isSome ↔
      RedeemType.FREE_SKU = RedeemType.PERCENTAGE) ∧
    ((buildCouponTypePayload RedeemType.FREE_SKU 0 0 true
        "sku-1, sku-2").valid_skus.isSome ↔
      RedeemType.FREE_SKU = RedeemType.FREE_SKU) ∧
    (buildCouponTypePayload RedeemType.FREE_SKU 0 0 true
        "sku-1, sku-2").redeem_type = RedeemType.FREE_SKU :=
  coupon_type_payload_sets_exactly_one_discount_field RedeemType.FREE_SKU 0 0
    true "sku-1, sku-2"

/-- Claim C9: the ApiClient class defines no patch member, so the method
adminApi.updateUserRole invokes does not exist and the invocation raises a
TypeError before any request is constructed. -/
theorem update_user_role_always_fails :
    apiClientMethods.contains updateUserRoleInvokedMethod = false ∧
    invokeApiClientMethod updateUserRoleInvokedMethod =
      Except.error "TypeError: apiClient.patch is not a function" :=
  ⟨rfl, rfl⟩

/-- Claim C10: in BRL display mode a balance whose as_brl conversion is null
renders the currency fallback zero while its point count is shown unchanged,
so the currency and points presentations can disagree on emptiness. -/
theorem null_conversion_renders_zero_currency (b : WalletBalanceRec)
    (h : b.as_brl = none) :
    walletMainValue DisplayAs.brl b = BalanceDisplay.currency 0 ∧
    walletSubValue DisplayAs.brl b = some (BalanceDisplay.number b.points) ∧
    walletMainValue DisplayAs.points b = BalanceDisplay.number b.points := by
  simp [walletMainValue, walletSubValue, h]

/-- Claim C10 witness: a 500-point balance with a null conversion shows
currency zero in BRL mode next to the unchanged point count. -/
theorem null_conversion_renders_zero_currency_witness :
    (500 : Int) ≠ 0 ∧
    (walletMainValue DisplayAs.brl nullBrlBalance = BalanceDisplay.currency 0 ∧
      walletSubValue DisplayAs.brl nullBrlBalance =
        some (BalanceDisplay.number 500) ∧
      walletMainValue DisplayAs.points nullBrlBalance =
        BalanceDisplay.number 500) :=
  ⟨by decide, null_conversion_renders_zero_currency nullBrlBalance rfl⟩

end Fidelity
